import Mathlib

/-!
# plantbk: the plant cache of `script.js` and its watering-date calculation

A shallow embedding of the client script (`src/script.js`): the in-memory
array `plants`, its copy under the `localStorage` key `'plants'`, and the four
operations that write them (`fetchPlantsFromServer`, the form's submit handler,
`waterPlant`, `deletePlant`), together with the date arithmetic of
`updatePlantList` (`setDate(getDate() + parseInt(interval))`).

Conventions of the embedding.

* A JavaScript value is a `JSVal`.  Numbers are integers (`Int`); a property
  that is absent from an object reads as `undefined`, exactly as in JavaScript,
  and `JSON.stringify` omits `undefined` properties, so a plant is a record of
  four `JSVal` fields and the serialised copy in `localStorage` is the same
  list of records.
* A `fetch` call settles in one of the ways listed in `FetchResult`; which one
  is an input of each operation.  A call that never settles is not modelled.
* `new Date()` reads a clock; the reading (milliseconds since the epoch) is an
  input of each operation.
* An `async` function either fulfils (`result = some _`) or rejects with the
  `TypeError` raised in its body (`result = none`); in both cases the state it
  leaves behind and the list of requests it issued are part of the outcome.
* The list items and handlers that `updatePlantList` builds are not part of the
  state; the form fields exist and `localStorage.setItem` succeeds.  Rendering
  can throw, when a cached field is an object that cannot be converted to a
  string (`updatePlantList`).  In `fetchPlantsFromServer` the render runs inside
  the `try` and decides the return value, so it is part of that definition.  In
  `waterPlant`, `deletePlant` and the submit handler the render is the last
  statement, after the array and the stored copy have been written; their
  outcome describes the function up to and including that write.
-/

namespace PlantBk

/-! ## JavaScript values -/

/-- A JavaScript value as it can come out of `JSON.parse`, a form field or a
missing property. -/
inductive JSVal where
  | undefined : JSVal
  | null : JSVal
  | bool (b : Bool) : JSVal
  | num (n : Int) : JSVal
  | str (s : String) : JSVal
  | arr (items : List JSVal) : JSVal
  | obj (fields : List (String × JSVal)) : JSVal

namespace JSVal

/-- Truthiness (`ToBoolean`): `undefined`, `null`, `false`, `0` and `""` are
falsy, everything else (every array and object included) is truthy. -/
def truthy : JSVal → Bool
  | undefined => false
  | null => false
  | bool b => b
  | num n => n != 0
  | str s => s != ""
  | arr _ => true
  | obj _ => true

/-- The operator `a || b`. -/
def or (a b : JSVal) : JSVal := if a.truthy then a else b

/-- The last binding of `key` in a parsed JSON object (`JSON.parse` keeps the
last of duplicate keys); `undefined` when there is none. -/
def lookupField (key : String) : List (String × JSVal) → JSVal
  | [] => undefined
  | (k, v) :: rest =>
    match lookupField key rest with
    | undefined => if k == key then v else undefined
    | found => found

/-- Property read `v.key` for the keys the script uses on parsed data
(`_id`, `id`, `name`, `interval`, `lastWatered`, `plants`), none of which is
defined on a built-in prototype: `none` is the `TypeError` of reading a
property of `undefined` or `null`; a primitive or an array has no such
property. -/
def getProp (v : JSVal) (key : String) : Option JSVal :=
  match v with
  | undefined => none
  | null => none
  | obj fields => some (lookupField key fields)
  | _ => some undefined

end JSVal

open JSVal

/-! ## Time values (ECMAScript Date) -/

/-- Milliseconds per day. -/
def msPerDay : Int := 86400000

/-- ECMAScript `Day(t)`. -/
def Day (t : Int) : Int := t / msPerDay

/-- ECMAScript `TimeWithinDay(t)`. -/
def TimeWithinDay (t : Int) : Int := t % msPerDay

/-- ECMAScript `DayFromYear(y)`: the day number of 1 January of year `y`. -/
def DayFromYear (y : Int) : Int :=
  365 * (y - 1970) + (y - 1969) / 4 - (y - 1901) / 100 + (y - 1601) / 400

/-- The year containing day number `d`: the largest `y` with
`DayFromYear y ≤ d`, found from the 400-year estimate, which is off by at
most one. -/
def YearFromDay (d : Int) : Int :=
  let y := 1970 + d * 400 / 146097
  if DayFromYear (y + 1) ≤ d then y + 1
  else if DayFromYear y ≤ d then y
  else y - 1

/-- ECMAScript `YearFromTime(t)`. -/
def YearFromTime (t : Int) : Int := YearFromDay (Day t)

/-- ECMAScript `InLeapYear`, as a predicate on the year. -/
def isLeap (y : Int) : Bool :=
  y % 4 == 0 && (y % 100 != 0 || y % 400 == 0)

/-- ECMAScript `DayWithinYear(t)`. -/
def DayWithinYear (t : Int) : Int := Day t - DayFromYear (YearFromTime t)

/-- Day-within-year on which month `m` (0 = January) starts. -/
def monthStart (leap : Bool) (m : Int) : Int :=
  let l : Int := if leap then 1 else 0
  if m ≤ 0 then 0
  else if m = 1 then 31
  else if m = 2 then 59 + l
  else if m = 3 then 90 + l
  else if m = 4 then 120 + l
  else if m = 5 then 151 + l
  else if m = 6 then 181 + l
  else if m = 7 then 212 + l
  else if m = 8 then 243 + l
  else if m = 9 then 273 + l
  else if m = 10 then 304 + l
  else 334 + l

/-- ECMAScript `MonthFromTime(t)`, 0 = January. -/
def MonthFromTime (t : Int) : Int :=
  let leap := isLeap (YearFromTime t)
  let d := DayWithinYear t
  if d < monthStart leap 1 then 0
  else if d < monthStart leap 2 then 1
  else if d < monthStart leap 3 then 2
  else if d < monthStart leap 4 then 3
  else if d < monthStart leap 5 then 4
  else if d < monthStart leap 6 then 5
  else if d < monthStart leap 7 then 6
  else if d < monthStart leap 8 then 7
  else if d < monthStart leap 9 then 8
  else if d < monthStart leap 10 then 9
  else if d < monthStart leap 11 then 10
  else 11

/-- ECMAScript `DateFromTime(t)`: the day of the month, from 1. -/
def DateFromTime (t : Int) : Int :=
  DayWithinYear t - monthStart (isLeap (YearFromTime t)) (MonthFromTime t) + 1

/-- ECMAScript `HourFromTime(t)`. -/
def HourFromTime (t : Int) : Int := TimeWithinDay t / 3600000
/-- ECMAScript `MinFromTime(t)`. -/
def MinFromTime (t : Int) : Int := TimeWithinDay t / 60000 % 60
/-- ECMAScript `SecFromTime(t)`. -/
def SecFromTime (t : Int) : Int := TimeWithinDay t / 1000 % 60
/-- ECMAScript `msFromTime(t)`. -/
def msFromTime (t : Int) : Int := TimeWithinDay t % 1000

/-- ECMAScript `MakeDay(year, month, date)`: the day number of day `date` of the given
month, where `date` may lie outside the month and `month` outside 0..11. -/
def MakeDay (year month date : Int) : Int :=
  let ym := year + month / 12
  let mn := month % 12
  DayFromYear ym + monthStart (isLeap ym) mn + date - 1

/-- ECMAScript `MakeDate(day, time)`. -/
def MakeDate (day time : Int) : Int := day * msPerDay + time

/-- ECMAScript `TimeClip`: a time value further than 8.64e15 ms from the epoch is not a
date (`none` is NaN, the Invalid Date). -/
def TimeClip (t : Int) : Option Int :=
  if t.natAbs > 8640000000000000 then none else some t

/-- ECMAScript `LocalTime(t)`, for a host whose offset function is `LocalTZA`. -/
def LocalTime (LocalTZA : Int → Bool → Int) (t : Int) : Int := t + LocalTZA t true

/-- ECMAScript `UTC(t)`: from local time back to a time value. -/
def UTC (LocalTZA : Int → Bool → Int) (t : Int) : Int := t - LocalTZA t false

/-- ECMAScript `Date.prototype.getDate` on a valid time value. -/
def getDate (LocalTZA : Int → Bool → Int) (tv : Int) : Int :=
  DateFromTime (LocalTime LocalTZA tv)

/-- ECMAScript `Date.prototype.setDate(date)` on a valid time value: the new time value,
`none` when it is the Invalid Date. -/
def setDate (LocalTZA : Int → Bool → Int) (tv : Int) (date : Int) : Option Int :=
  let t := LocalTime LocalTZA tv
  let newDate := MakeDate (MakeDay (YearFromTime t) (MonthFromTime t) date) (TimeWithinDay t)
  TimeClip (UTC LocalTZA newDate)

/-- Decimal digits of `n`, left-padded with zeros to at least `width`. -/
def padZero (width : Nat) (n : Nat) : String :=
  let digits := Nat.repr n
  String.mk (List.replicate (width - digits.length) '0') ++ digits

/-- The year of an ISO date-time string: four digits for the years 0 to 9999,
otherwise a sign and six digits. -/
def yearString (y : Int) : String :=
  if 0 ≤ y ∧ y ≤ 9999 then padZero 4 y.toNat
  else (if y < 0 then "-" else "+") ++ padZero 6 y.natAbs

/-- ECMAScript `Date.prototype.toISOString` on a valid time value:
`YYYY-MM-DDTHH:mm:ss.sssZ`, in UTC. -/
def toISOString (t : Int) : String :=
  yearString (YearFromTime t) ++ "-" ++ padZero 2 (MonthFromTime t + 1).toNat ++ "-" ++
  padZero 2 (DateFromTime t).toNat ++ "T" ++ padZero 2 (HourFromTime t).toNat ++ ":" ++
  padZero 2 (MinFromTime t).toNat ++ ":" ++ padZero 2 (SecFromTime t).toNat ++ "." ++
  padZero 3 (msFromTime t).toNat ++ "Z"

/-! ## `parseInt` -/

/-- ECMAScript `Number::toString` for an integer-valued number: plain decimal digits below
1e21 in magnitude, the exponent form `d.ddde+k` from there on (digits of the
integer itself, trailing zeros dropped). -/
def numberToString (n : Int) : String :=
  if n.natAbs < 10 ^ 21 then
    (if n < 0 then "-" else "") ++ Nat.repr n.natAbs
  else
    let digits := (Nat.repr n.natAbs).toList
    let mantissa := (digits.reverse.dropWhile (· == '0')).reverse
    let frac := mantissa.drop 1
    (if n < 0 then "-" else "") ++ String.mk (mantissa.take 1) ++
      (if frac.isEmpty then "" else "." ++ String.mk frac) ++ "e+" ++ Nat.repr (digits.length - 1)

mutual
/-- ECMAScript `ToString(v)` for a value whose conversion completes (see
`printable`); an object without a `toString` of its own prints through
`Object.prototype.toString`. -/
def toStr : JSVal → String
  | .undefined => "undefined"
  | .null => "null"
  | .bool b => if b then "true" else "false"
  | .num n => numberToString n
  | .str s => s
  | .arr items => joinStr items
  | .obj _ => "[object Object]"
termination_by structural v => v
/-- ECMAScript `Array.prototype.join(",")`: `undefined` and `null` elements print as the
empty string. -/
def joinStr : List JSVal → String
  | [] => ""
  | x :: rest =>
    (match x with
      | .undefined => ""
      | .null => ""
      | v => toStr v) ++ (match rest with
      | [] => ""
      | _ => ",") ++ joinStr rest
termination_by structural l => l
end

mutual
/-- Whether the string conversion of a parsed JSON value completes.  An object
with an own property `toString` cannot be converted: the property is never a
function in parsed JSON, and `Object.prototype.valueOf` returns the object, so
`ToPrimitive` throws a `TypeError`.  An array is converted through `join`, which
converts its elements. -/
def printable : JSVal → Bool
  | .arr items => printableAll items
  | .obj fields => !(fields.any (fun kv => kv.1 == "toString"))
  | _ => true
termination_by structural v => v
/-- Whether every element of an array can be converted to a string. -/
def printableAll : List JSVal → Bool
  | [] => true
  | x :: rest => printable x && printableAll rest
termination_by structural l => l
end

/-- ECMAScript `StrWhiteSpaceChar`: white space and line terminators. -/
def isStrWhiteSpaceChar (c : Char) : Bool :=
  let n := c.toNat
  n == 9 || n == 10 || n == 11 || n == 12 || n == 13 || n == 32 || n == 160 ||
  n == 0x1680 || (0x2000 ≤ n && n ≤ 0x200A) || n == 0x2028 || n == 0x2029 ||
  n == 0x202F || n == 0x205F || n == 0x3000 || n == 0xFEFF

/-- Value of `c` as a digit of the given radix (10 or 16), if it is one. -/
def digitValue (radix : Nat) (c : Char) : Option Nat :=
  let n := c.toNat
  if 48 ≤ n ∧ n ≤ 57 then some (n - 48)
  else if radix = 16 ∧ 97 ≤ n ∧ n ≤ 102 then some (n - 87)
  else if radix = 16 ∧ 65 ≤ n ∧ n ≤ 70 then some (n - 55)
  else none

/-- ECMAScript `parseInt` of a string, no radix argument: leading white space, an
optional sign, an optional `0x`/`0X` and then the longest run of digits;
`none` is NaN. -/
def parseIntString (s : String) : Option Int :=
  let cs := s.toList.dropWhile isStrWhiteSpaceChar
  let signed : Bool × List Char :=
    match cs with
    | '-' :: r => (true, r)
    | '+' :: r => (false, r)
    | _ => (false, cs)
  let based : Nat × List Char :=
    match signed.2 with
    | '0' :: 'x' :: r => (16, r)
    | '0' :: 'X' :: r => (16, r)
    | _ => (10, signed.2)
  let ds := (based.2.takeWhile (fun c => (digitValue based.1 c).isSome)).filterMap (digitValue based.1)
  if ds.isEmpty then none
  else
    let m : Nat := ds.foldl (fun acc d => acc * based.1 + d) 0
    some (if signed.1 then -(m : Int) else (m : Int))

/-- ECMAScript `parseInt(v)`: `parseInt` of `ToString(v)`, for a value whose string
conversion completes. -/
def parseInt (v : JSVal) : Option Int := parseIntString (toStr v)

/-- The date shown as "Next watering" for a plant (`updatePlantList`, lines
38-39): `tv` is the time value of `new Date(plant.lastWatered)` (`none` for the
Invalid Date), and the result is the time value after
`setDate(getDate() + parseInt(plant.interval))`. -/
def nextWatering (LocalTZA : Int → Bool → Int) (tv : Option Int) (interval : JSVal) :
    Option Int :=
  match tv, parseInt interval with
  | some t, some n => setDate LocalTZA t (getDate LocalTZA t + n)
  | _, _ => none

/-! ## The plant cache -/

/-- An element of the array `plants`: the object
`{ _id, name, interval, lastWatered }`.  A property the object does not have
(the `_id` of `newPlant`) is `undefined`. -/
structure Plant where
  _id : JSVal
  name : JSVal
  interval : JSVal
  lastWatered : JSVal

/-- The script's state: the global array `plants` and the item stored under
the `localStorage` key `'plants'` (`none` while nothing has been stored). -/
structure State where
  plants : List Plant
  storage : Option (List Plant)

/-- A request sent with `fetch`. -/
inductive Request where
  | getPlants : Request
  | postPlant (body : Plant) : Request
  | putWater (_id : JSVal) : Request
  | deletePlant (_id : JSVal) : Request

/-- How a `fetch` call settles: the promise rejects (the server cannot be
reached), or it resolves to a response with its `ok` flag and the value of
`res.json()` (`none` when the body is not JSON). -/
inductive FetchResult where
  | networkError : FetchResult
  | response (ok : Bool) (json : Option JSVal) : FetchResult

/-- What a call of one of the script's `async` functions leaves behind: the
state, the requests it sent, and its return value (`none` when the function
threw a `TypeError`, so that its promise rejects). -/
structure Outcome (α : Type) where
  state : State
  calls : List Request
  result : Option α

/-- Line 8: `JSON.parse(localStorage.getItem('plants')) || []`. -/
def loadPlants (storage : Option (List Plant)) : List Plant :=
  storage.getD []

/-- Source function `saveAndUpdate` (lines 94-97): store the array under `'plants'`.
The render that follows is the caller's last statement and changes neither the
array nor the stored copy. -/
def saveAndUpdate (plants : List Plant) : State :=
  { plants := plants, storage := some plants }

/-- The element read `plants[index]` for an index that is the result of
`parseInt` (`none` is NaN): `none` is `undefined`, the value of every index
that is not one of `0 .. length - 1`. -/
def arrayGet (plants : List Plant) (index : Option Int) : Option Plant :=
  match index with
  | some (Int.ofNat i) => plants[i]?
  | _ => none

/-- Array `splice(index, 1)`: the start is `index` truncated to an integer
(NaN counts as 0), a negative start counts from the end, and one element is
removed if the start is inside the array. -/
def splice1 (plants : List Plant) (index : Option Int) : List Plant :=
  let rel : Int := index.getD 0
  let len : Int := plants.length
  let start : Int := if rel < 0 then max (len + rel) 0 else min rel len
  plants.eraseIdx start.toNat

/-- Source function `updatePlantList` (lines 35-64), as far as the script's control flow
depends on it: `true` when the render completes, `false` when it throws.  For
each plant it evaluates `new Date(plant.lastWatered)`, `parseInt(plant.interval)`
and the template literal with `plant.name`; each converts its argument to a
primitive and throws a `TypeError` exactly when that conversion does. -/
def updatePlantList (plants : List Plant) : Bool :=
  plants.all (fun plant =>
    printable plant.lastWatered && printable plant.interval && printable plant.name)

/-- The callback of `serverPlants.map` (lines 19-24) on one element, `now`
being the clock reading of its `new Date()`; `none` when reading a property of
the element throws. -/
def mapServerPlant (now : Int) (p : JSVal) : Option Plant :=
  match p.getProp "_id", p.getProp "id", p.getProp "name", p.getProp "interval",
      p.getProp "lastWatered" with
  | some _id, some id, some name, some interval, some lastWatered =>
    some { _id := _id.or id, name := name, interval := interval,
           lastWatered := lastWatered.or (.str (toISOString now)) }
  | _, _, _, _, _ => none

/-- The call `serverPlants.map(...)` from element number `i` on; `clock k` is the
clock reading while element `k` is mapped. -/
def mapServerPlants (clock : Nat → Int) : Nat → List JSVal → Option (List Plant)
  | _, [] => some []
  | i, p :: rest =>
    match mapServerPlant (clock i) p, mapServerPlants clock (i + 1) rest with
    | some q, some qs => some (q :: qs)
    | _, _ => none

/-- The value of `Array.isArray(data) ? data : (data.plants || [])`; `none`
when `data.plants` throws. -/
def serverPlantsOf (data : JSVal) : Option JSVal :=
  match data with
  | .arr items => some (.arr items)
  | _ =>
    match data.getProp "plants" with
    | none => none
    | some v => some (v.or (.arr []))

/-- Source function `fetchPlantsFromServer` (lines 10-33).  Every exception inside the `try`
is caught and leads to `return false`: a rejected `fetch`, the `throw` on
`!res.ok`, a rejected `res.json()`, a property read on `null`, the call of
`.map` on a value that is not an array (a truthy `data.plants` that is a
string, number, boolean or object either has no `length > 0` or has no
function `map`), and a throw of `updatePlantList()` on line 26.  The array
`plants` is assigned only after `map` has returned; it is assigned and stored
before the render, so a render that throws leaves the new cache in place and
the function returns `false`. -/
def fetchPlantsFromServer (clock : Nat → Int) (r : FetchResult) (s : State) :
    Outcome Bool :=
  let unchanged : Outcome Bool := { state := s, calls := [Request.getPlants], result := some false }
  match r with
  | .networkError => unchanged
  | .response false _ => unchanged
  | .response true none => unchanged
  | .response true (some data) =>
    match serverPlantsOf data with
    | some (.arr items) =>
      if items.length > 0 then
        match mapServerPlants clock 0 items with
        | some ps =>
          { state := { plants := ps, storage := some ps },
            calls := [Request.getPlants], result := some (updatePlantList ps) }
        | none => unchanged
      else unchanged
    | _ => unchanged

/-- Source function `waterPlant` (lines 66-78).  `plants[index]` that is `undefined` makes the
assignment `plant.lastWatered = ...` throw before anything else happens.  The
outcome of the `fetch` is not looked at: a rejection is caught, a response is
dropped. -/
def waterPlant (now : Int) (_r : FetchResult) (index : Option Int) (s : State) :
    Outcome Unit :=
  match arrayGet s.plants index with
  | none => { state := s, calls := [], result := none }
  | some plant =>
    let watered : Plant := { plant with lastWatered := .str (toISOString now) }
    let plants := s.plants.set (index.getD 0).toNat watered
    { state := saveAndUpdate plants,
      calls := if plant._id.truthy then [Request.putWater plant._id] else [],
      result := some () }

/-- Source function `deletePlant` (lines 80-92).  `plants[index]` that is `undefined` makes the
read `plant._id` throw before anything else happens.  The outcome of the
`fetch` is not looked at. -/
def deletePlant (_r : FetchResult) (index : Option Int) (s : State) : Outcome Unit :=
  match arrayGet s.plants index with
  | none => { state := s, calls := [], result := none }
  | some plant =>
    { state := saveAndUpdate (splice1 s.plants index),
      calls := if plant._id.truthy then [Request.deletePlant plant._id] else [],
      result := some () }

/-- The object `newPlant` of the submit handler (lines 103-107): `name` and
`interval` are the `value` strings of the two form fields. -/
def newPlant (now : Int) (name interval : String) : Plant :=
  { _id := .undefined, name := .str name, interval := .str interval,
    lastWatered := .str (toISOString now) }

/-- The object pushed when the response is `ok` (line 119); `none` when
`saved` is `null`, whose property read throws into the `catch`. -/
def savedPlant (saved : JSVal) : Option Plant :=
  match saved.getProp "_id", saved.getProp "name", saved.getProp "interval",
      saved.getProp "lastWatered" with
  | some _id, some name, some interval, some lastWatered =>
    some { _id := _id, name := name, interval := interval, lastWatered := lastWatered }
  | _, _, _, _ => none

/-- The form's submit handler (lines 99-129): the plant pushed is the saved
record when the response is `ok` and its body can be read, and `newPlant` in
every other case (`else` branch and `catch`). -/
def submitPlant (now : Int) (r : FetchResult) (name interval : String) (s : State) :
    Outcome Unit :=
  let candidate := newPlant now name interval
  let pushed : Plant :=
    match r with
    | .response true (some saved) => (savedPlant saved).getD candidate
    | _ => candidate
  { state := saveAndUpdate (s.plants ++ [pushed]),
    calls := [Request.postPlant candidate],
    result := some () }

/-- The interval of a plant is a positive number of days: `parseInt` of it, the
number the client adds to the date (line 39), is a number and is greater
than 0. -/
def intervalPositive (interval : JSVal) : Bool :=
  match parseInt interval with
  | some n => decide (0 < n)
  | none => false

/-- The answers to the list request that carry no plant: the `fetch` rejects,
the response is not `ok`, the body is the empty array, or the body is an
object whose `plants` is missing or the empty array. -/
def listFailsOrEmpty (r : FetchResult) : Prop :=
  match r with
  | .networkError => True
  | .response false _ => True
  | .response true (some (.arr [])) => True
  | .response true (some (.obj fields)) =>
    lookupField "plants" fields = .undefined ∨ lookupField "plants" fields = .arr []
  | _ => False

/-- The identifier a listed record carries: its `_id`, or its `id` when it has
no `_id`. -/
def recordId (fields : List (String × JSVal)) : JSVal :=
  match lookupField "_id" fields with
  | .undefined => lookupField "id" fields
  | v => v

/-- A listed record `{id, name, intervalDays, lastWateredAt}` of the data model:
the identifier is a non-empty string, the name a string, the interval a
number and the time of the last watering a non-empty string. -/
def isPlantRecord (fields : List (String × JSVal)) : Prop :=
  (∃ i : String, i ≠ "" ∧ recordId fields = .str i) ∧
  (∃ name : String, lookupField "name" fields = .str name) ∧
  (∃ n : Int, lookupField "interval" fields = .num n) ∧
  (∃ ts : String, ts ≠ "" ∧ lookupField "lastWatered" fields = .str ts)

/-- An example of a host offset function: US Eastern time around the clock
change of 10 March 2024, 07:00 UTC, when local 02:00 (UTC-5) became 03:00
(UTC-4).  For a local time inside the skipped hour the offset before the change
is used, as ECMAScript prescribes. -/
def easternOffset2024 (t : Int) (isUTC : Bool) : Int :=
  if t < (if isUTC then 1710054000000 else 1710039600000) then -18000000 else -14400000

/-! ## Reading and erasing by position -/

theorem arrayGet_ofNat (plants : List Plant) (p : Nat) :
    arrayGet plants (some (p : Int)) = plants[p]? := rfl

theorem arrayGet_eq_none (plants : List Plant) (index : Option Int)
    (h : index = none ∨ ∃ i : Int, index = some i ∧ (i < 0 ∨ (plants.length : Int) ≤ i)) :
    arrayGet plants index = none := by
  rcases h with h | ⟨i, h, hi⟩
  · subst h; rfl
  · subst h
    cases i with
    | ofNat k =>
      have hk : plants.length ≤ k := by
        simp only [Int.ofNat_eq_coe] at hi
        omega
      simp [arrayGet, List.getElem?_eq_none hk]
    | negSucc k => rfl

theorem splice1_ofNat (plants : List Plant) (p : Nat) (h : p < plants.length) :
    splice1 plants (some (p : Int)) = plants.eraseIdx p := by
  unfold splice1
  have h1 : ¬ ((p : Int) < 0) := by omega
  have h2 : min (p : Int) (plants.length : Int) = (p : Int) := by
    apply min_eq_left
    omega
  simp only [Option.getD_some, if_neg h1, h2, Int.toNat_ofNat]

theorem deletePlant_valid (r : FetchResult) (s : State) (p : Nat) (h : p < s.plants.length) :
    deletePlant r (some (p : Int)) s =
      { state := saveAndUpdate (s.plants.eraseIdx p),
        calls := if (s.plants[p])._id.truthy then [Request.deletePlant (s.plants[p])._id] else [],
        result := some () } := by
  unfold deletePlant
  rw [arrayGet_ofNat, List.getElem?_eq_getElem h, splice1_ofNat _ _ h]

theorem waterPlant_valid (now : Int) (r : FetchResult) (s : State) (p : Nat)
    (h : p < s.plants.length) :
    waterPlant now r (some (p : Int)) s =
      { state := saveAndUpdate
          (s.plants.set p { s.plants[p] with lastWatered := .str (toISOString now) }),
        calls := if (s.plants[p])._id.truthy then [Request.putWater (s.plants[p])._id] else [],
        result := some () } := by
  unfold waterPlant
  rw [arrayGet_ofNat, List.getElem?_eq_getElem h]
  simp only [Option.getD_some, Int.toNat_ofNat]

/-! ## Deleting -/

/-- C1. For a cache of size k and a position p < k, `deletePlant(p)` fulfils
and leaves, in memory and in storage, the original sequence with exactly the
element at p removed: the size is k - 1, the elements before p keep their
positions and every element after p moves down by one. -/
theorem deletePlant_removes_exactly_one (r : FetchResult) (s : State) (p : Nat)
    (h : p < s.plants.length) :
    (deletePlant r (some (p : Int)) s).result = some () ∧
    (deletePlant r (some (p : Int)) s).state.plants = s.plants.eraseIdx p ∧
    (deletePlant r (some (p : Int)) s).state.plants.length + 1 = s.plants.length ∧
    (∀ i, i < p → (deletePlant r (some (p : Int)) s).state.plants[i]? = s.plants[i]?) ∧
    (∀ i, p ≤ i → (deletePlant r (some (p : Int)) s).state.plants[i]? = s.plants[i + 1]?) ∧
    (deletePlant r (some (p : Int)) s).state.storage = some (s.plants.eraseIdx p) := by
  rw [deletePlant_valid r s p h]
  refine ⟨rfl, rfl, ?_, ?_, ?_, rfl⟩
  · simp [saveAndUpdate, List.length_eraseIdx, h]
    omega
  · intro i hi
    simp [saveAndUpdate, List.getElem?_eraseIdx, hi]
  · intro i hi
    simp [saveAndUpdate, List.getElem?_eraseIdx]
    omega

/-- Witness of C1: deleting position 1 of a three-element cache. -/
theorem deletePlant_removes_exactly_one_witness :
    (deletePlant .networkError (some ((1 : Nat) : Int))
        ⟨[newPlant 0 "Fern" "3", newPlant 0 "Basil" "2", newPlant 0 "Aloe" "14"], none⟩).state.plants
      = [newPlant 0 "Fern" "3", newPlant 0 "Aloe" "14"] :=
  (deletePlant_removes_exactly_one .networkError
    ⟨[newPlant 0 "Fern" "3", newPlant 0 "Basil" "2", newPlant 0 "Aloe" "14"], none⟩ 1
    (by decide)).2.1

/-! ## Positions outside the cache -/

/-- C10. For a position that is NaN, negative, or at least the size of the
cache, `waterPlant` and `deletePlant` reject (their body throws), send no
request, and leave the array and the stored copy as they were. -/
theorem out_of_range_position_fails (now : Int) (r : FetchResult) (s : State)
    (index : Option Int)
    (h : index = none ∨ ∃ i : Int, index = some i ∧ (i < 0 ∨ (s.plants.length : Int) ≤ i)) :
    waterPlant now r index s = { state := s, calls := [], result := none } ∧
    deletePlant r index s = { state := s, calls := [], result := none } := by
  have hget := arrayGet_eq_none s.plants index h
  constructor
  · unfold waterPlant
    rw [hget]
  · unfold deletePlant
    rw [hget]

/-- Witness of C10: position 1 (the size) of a one-element cache. -/
theorem out_of_range_position_fails_witness :
    waterPlant 0 .networkError (some 1) ⟨[newPlant 0 "Fern" "3"], none⟩ =
      { state := ⟨[newPlant 0 "Fern" "3"], none⟩, calls := [], result := none } ∧
    deletePlant .networkError (some 1) ⟨[newPlant 0 "Fern" "3"], none⟩ =
      { state := ⟨[newPlant 0 "Fern" "3"], none⟩, calls := [], result := none } :=
  out_of_range_position_fails 0 .networkError ⟨[newPlant 0 "Fern" "3"], none⟩ (some 1)
    (Or.inr ⟨1, rfl, Or.inr (by decide)⟩)

/-! ## The server's answer does not matter to water and delete -/

/-- C8. For a valid position, `waterPlant` and `deletePlant` fulfil when every
`fetch` rejects, and their whole outcome (array, stored copy, requests sent) is
the one they have, at the same clock reading, when the `fetch` resolves to any
response. -/
theorem water_delete_ignore_transport_failure (now : Int) (s : State) (p : Nat)
    (h : p < s.plants.length) (ok : Bool) (json : Option JSVal) :
    (waterPlant now .networkError (some (p : Int)) s).result = some () ∧
    (deletePlant .networkError (some (p : Int)) s).result = some () ∧
    waterPlant now .networkError (some (p : Int)) s =
      waterPlant now (.response ok json) (some (p : Int)) s ∧
    deletePlant .networkError (some (p : Int)) s =
      deletePlant (.response ok json) (some (p : Int)) s ∧
    (waterPlant now .networkError (some (p : Int)) s).state.storage =
      some (waterPlant now .networkError (some (p : Int)) s).state.plants ∧
    (deletePlant .networkError (some (p : Int)) s).state.storage =
      some (deletePlant .networkError (some (p : Int)) s).state.plants := by
  rw [waterPlant_valid now _ s p h, waterPlant_valid now _ s p h,
    deletePlant_valid _ s p h, deletePlant_valid _ s p h]
  exact ⟨rfl, rfl, rfl, rfl, rfl, rfl⟩

/-- Witness of C8: position 0 of a one-element cache whose plant has an id. -/
theorem water_delete_ignore_transport_failure_witness :
    waterPlant 0 .networkError (some ((0 : Nat) : Int))
        ⟨[⟨.str "a", .str "Fern", .num 3, .str "x"⟩], none⟩ =
      waterPlant 0 (.response true none) (some ((0 : Nat) : Int))
        ⟨[⟨.str "a", .str "Fern", .num 3, .str "x"⟩], none⟩ :=
  (water_delete_ignore_transport_failure 0 ⟨[⟨.str "a", .str "Fern", .num 3, .str "x"⟩], none⟩ 0
    (by decide) true none).2.2.1

/-! ## Creating -/

/-- C2. When the create request fails in transport or is answered with a
response that is not `ok`, the submit handler fulfils and leaves, in memory
and in storage, the original cache with exactly one plant appended at the end:
the given name and interval, `lastWatered` the clock reading of the call, and
no `_id`. -/
theorem submitPlant_offline_appends (now : Int) (name interval : String) (s : State)
    (json : Option JSVal) :
    (submitPlant now .networkError name interval s).result = some () ∧
    (submitPlant now (.response false json) name interval s).result = some () ∧
    (submitPlant now .networkError name interval s).state.plants =
      s.plants ++ [{ _id := .undefined, name := .str name, interval := .str interval,
                     lastWatered := .str (toISOString now) }] ∧
    (submitPlant now (.response false json) name interval s).state.plants =
      s.plants ++ [{ _id := .undefined, name := .str name, interval := .str interval,
                     lastWatered := .str (toISOString now) }] ∧
    (submitPlant now .networkError name interval s).state.storage =
      some (submitPlant now .networkError name interval s).state.plants ∧
    (submitPlant now (.response false json) name interval s).state.storage =
      some (submitPlant now (.response false json) name interval s).state.plants :=
  ⟨rfl, rfl, rfl, rfl, rfl, rfl⟩

/-- C9. When the create request is answered `ok` with a record, the submit
handler leaves the original cache with exactly one plant appended at the end
whose `_id`, `name`, `interval` and `lastWatered` are those of the record, not
those of the candidate built from the form. -/
theorem submitPlant_adopts_saved_record (now : Int) (name interval : String) (s : State)
    (fields : List (String × JSVal)) :
    (submitPlant now (.response true (some (.obj fields))) name interval s).state.plants =
      s.plants ++ [{ _id := lookupField "_id" fields, name := lookupField "name" fields,
                     interval := lookupField "interval" fields,
                     lastWatered := lookupField "lastWatered" fields }] ∧
    (submitPlant now (.response true (some (.obj fields))) name interval s).state.storage =
      some (submitPlant now (.response true (some (.obj fields))) name interval s).state.plants ∧
    (submitPlant now (.response true (some (.obj fields))) name interval s).result = some () :=
  ⟨rfl, rfl, rfl⟩

/-- C7, the failing input. The form is submitted with the interval `-3` and
the server answers 400 as `server.js` does for it: the handler stores a plant
whose interval is `-3`, which is not a positive number of days.  A listed
record whose interval is 0 is stored by `fetchPlantsFromServer` in the same
way. -/
theorem submitPlant_persists_nonpositive_interval :
    (submitPlant 1000000000000
        (.response false (some (.obj [("message", .str "Interval must be a positive number")])))
        "Basil" "-3" ⟨[], none⟩).state.storage =
      some [{ _id := .undefined, name := .str "Basil", interval := .str "-3",
              lastWatered := .str "2001-09-09T01:46:40.000Z" }] ∧
    parseInt (.str "-3") = some (-3) ∧
    intervalPositive (.str "-3") = false ∧
    (fetchPlantsFromServer (fun _ => 1000000000000)
        (.response true (some (.arr [.obj [("_id", .str "a"), ("name", .str "Fern"),
          ("interval", .num 0), ("lastWatered", .str "2001-09-09T01:46:40.000Z")]])))
        ⟨[], none⟩).state.storage =
      some [{ _id := .str "a", name := .str "Fern", interval := .num 0,
              lastWatered := .str "2001-09-09T01:46:40.000Z" }] ∧
    intervalPositive (.num 0) = false :=
  ⟨rfl, by decide, by decide, rfl, by decide⟩

/-! ## Watering -/

/-- C6, counterexample. A plant whose `lastWatered` is a later instant than the
clock reading of the call (2033 against 2001) is set back to the clock
reading: after `waterPlant` its `lastWatered` is the earlier instant. -/
theorem waterPlant_can_go_backward :
    toISOString 2000000000000 = "2033-05-18T03:33:20.000Z" ∧
    (waterPlant 1000000000000 .networkError (some 0)
        ⟨[⟨.undefined, .str "Fern", .str "3", .str (toISOString 2000000000000)⟩], none⟩).state.plants
      = [⟨.undefined, .str "Fern", .str "3", .str (toISOString 1000000000000)⟩] ∧
    toISOString 1000000000000 = "2001-09-09T01:46:40.000Z" ∧
    ¬ ((1000000000000 : Int) ≥ 2000000000000) :=
  ⟨by decide, rfl, by decide, by decide⟩

/-- C6, amended. For a valid position p, `waterPlant(p)` fulfils and replaces
the `lastWatered` of the plant at p by the clock reading of the call, whatever
it was before; the plant's other fields, the other plants and the order are
unchanged, and the stored copy is the new array.  A second call on the same
position leaves the reading of the second call, so the value goes backward
exactly when the clock does. -/
theorem waterPlant_sets_clock_reading (now later : Int) (r r2 : FetchResult) (s : State)
    (p : Nat) (h : p < s.plants.length) :
    (waterPlant now r (some (p : Int)) s).result = some () ∧
    (waterPlant now r (some (p : Int)) s).state.plants =
      s.plants.set p { s.plants[p] with lastWatered := .str (toISOString now) } ∧
    (waterPlant now r (some (p : Int)) s).state.storage =
      some (waterPlant now r (some (p : Int)) s).state.plants ∧
    (waterPlant later r2 (some (p : Int)) (waterPlant now r (some (p : Int)) s).state).state.plants =
      s.plants.set p { s.plants[p] with lastWatered := .str (toISOString later) } := by
  have h2 : p < (saveAndUpdate
      (s.plants.set p { s.plants[p] with lastWatered := .str (toISOString now) })).plants.length := by
    simpa [saveAndUpdate] using h
  rw [waterPlant_valid now r s p h, waterPlant_valid later r2 _ p h2]
  refine ⟨rfl, rfl, rfl, ?_⟩
  simp [saveAndUpdate]

/-- Witness of the amended C6: watering position 0 of a one-element cache. -/
theorem waterPlant_sets_clock_reading_witness :
    (waterPlant 1000000000000 .networkError (some ((0 : Nat) : Int))
        ⟨[⟨.undefined, .str "Fern", .str "3", .str "2033-05-18T03:33:20.000Z"⟩], none⟩).state.plants =
      [⟨.undefined, .str "Fern", .str "3", .str (toISOString 1000000000000)⟩] :=
  (waterPlant_sets_clock_reading 1000000000000 0 .networkError .networkError
    ⟨[⟨.undefined, .str "Fern", .str "3", .str "2033-05-18T03:33:20.000Z"⟩], none⟩ 0
    (by decide)).2.1

/-! ## Calendar arithmetic -/

theorem DayFromYear_estimate (y : Int) :
    146097 * (y - 1970) - 800 ≤ 400 * DayFromYear y ∧
    400 * DayFromYear y ≤ 146097 * (y - 1970) + 800 := by
  unfold DayFromYear
  omega

theorem DayFromYear_succ (y : Int) :
    DayFromYear (y + 1) = DayFromYear y + 365 ∨ DayFromYear (y + 1) = DayFromYear y + 366 := by
  unfold DayFromYear
  omega

/-- The year `YearFromDay d` is the year whose days contain `d`. -/
theorem YearFromDay_spec (d : Int) :
    DayFromYear (YearFromDay d) ≤ d ∧ d < DayFromYear (YearFromDay d + 1) := by
  unfold YearFromDay
  simp only
  generalize hy : 1970 + d * 400 / 146097 = y
  have h0 := DayFromYear_estimate (y - 1)
  have h1 := DayFromYear_estimate y
  have h3 := DayFromYear_estimate (y + 1 + 1)
  split_ifs with c1 c2
  · constructor <;> omega
  · constructor <;> omega
  · rw [sub_add_cancel]
    constructor <;> omega

theorem ite_between {c : Prop} [Decidable c] {a b lo hi : Int}
    (ha : lo ≤ a ∧ a ≤ hi) (hb : lo ≤ b ∧ b ≤ hi) :
    lo ≤ (if c then a else b) ∧ (if c then a else b) ≤ hi := by
  split <;> assumption

theorem MonthFromTime_range (t : Int) : 0 ≤ MonthFromTime t ∧ MonthFromTime t ≤ 11 := by
  unfold MonthFromTime
  repeat' apply ite_between
  all_goals decide

/-- The function `MakeDay` on the year and month of `t` and a day of the month shifted by
`n` is the day number of `t` shifted by `n`. -/
theorem MakeDay_shift (t n : Int) :
    MakeDay (YearFromTime t) (MonthFromTime t) (DateFromTime t + n) = Day t + n := by
  obtain ⟨h0, h11⟩ := MonthFromTime_range t
  have hdiv : MonthFromTime t / 12 = 0 := by omega
  have hmod : MonthFromTime t % 12 = MonthFromTime t := by omega
  unfold MakeDay
  simp only [hdiv, hmod, add_zero]
  unfold DateFromTime DayWithinYear
  omega

theorem MakeDate_shift (t n : Int) :
    MakeDate (Day t + n) (TimeWithinDay t) = t + n * msPerDay := by
  unfold MakeDate Day TimeWithinDay
  have := Int.ediv_add_emod t msPerDay
  have e : (t / msPerDay + n) * msPerDay = msPerDay * (t / msPerDay) + n * msPerDay := by ring
  rw [e]
  omega

theorem Day_shift (t n : Int) : Day (t + n * msPerDay) = Day t + n := by
  unfold Day
  rw [Int.add_mul_ediv_right _ _ (by decide)]

theorem TimeWithinDay_shift (t n : Int) : TimeWithinDay (t + n * msPerDay) = TimeWithinDay t := by
  unfold TimeWithinDay
  rw [Int.add_mul_emod_self]

theorem setDate_getDate_add (LocalTZA : Int → Bool → Int) (t n : Int) :
    setDate LocalTZA t (getDate LocalTZA t + n) =
      TimeClip (UTC LocalTZA (LocalTime LocalTZA t + n * msPerDay)) := by
  unfold setDate getDate
  simp only
  rw [MakeDay_shift, MakeDate_shift]

/-! ## The next watering date -/

/-- C5, counterexample. Two inputs on which the computed date is not the date n
days later at the same time of day.  In UTC, for a plant last watered on 9
September 2001 and the interval 100000000, the result is the Invalid Date.  In
US Eastern time, for a plant last watered on 9 March 2024 at 02:30 local time
and the interval 1, the local time 02:30 of 10 March does not exist and the
result is 03:30 of that day. -/
theorem nextWatering_out_of_range_or_skipped :
    (toISOString 1000000000000 = "2001-09-09T01:46:40.000Z" ∧
      parseInt (.str "100000000") = some 100000000 ∧
      nextWatering (fun _ _ => 0) (some 1000000000000) (.str "100000000") = none) ∧
    (toISOString 1709969400000 = "2024-03-09T07:30:00.000Z" ∧
      TimeWithinDay (LocalTime easternOffset2024 1709969400000) = 9000000 ∧
      nextWatering easternOffset2024 (some 1709969400000) (.str "1") = some 1710055800000 ∧
      TimeWithinDay (LocalTime easternOffset2024 1710055800000) = 12600000) :=
  ⟨⟨by decide, by decide, by decide⟩, by decide, by decide, by decide, by decide⟩

/-- C5, amended. For a time value t and an interval that reads as the integer
n, let u be the time value of the local date-time n days after that of t.
When that local date-time exists in the host's zone (converting u back to
local time gives it again, which fails only inside an hour skipped by a clock
change) and u is a time value (at most 8.64e15 ms from the epoch), the computed
date is u: in local time its day number is the day number of t plus n, across
month ends, year ends and clock changes, and its time within the day is that
of t. -/
theorem nextWatering_adds_days (LocalTZA : Int → Bool → Int) (t n : Int) (interval : JSVal)
    (hparse : parseInt interval = some n)
    (hexists : LocalTime LocalTZA (UTC LocalTZA (LocalTime LocalTZA t + n * msPerDay)) =
      LocalTime LocalTZA t + n * msPerDay)
    (hrange : (UTC LocalTZA (LocalTime LocalTZA t + n * msPerDay)).natAbs ≤ 8640000000000000) :
    nextWatering LocalTZA (some t) interval =
      some (UTC LocalTZA (LocalTime LocalTZA t + n * msPerDay)) ∧
    Day (LocalTime LocalTZA (UTC LocalTZA (LocalTime LocalTZA t + n * msPerDay))) =
      Day (LocalTime LocalTZA t) + n ∧
    TimeWithinDay (LocalTime LocalTZA (UTC LocalTZA (LocalTime LocalTZA t + n * msPerDay))) =
      TimeWithinDay (LocalTime LocalTZA t) := by
  refine ⟨?_, ?_, ?_⟩
  · unfold nextWatering
    rw [hparse]
    simp only
    rw [setDate_getDate_add]
    unfold TimeClip
    rw [if_neg (by omega)]
  · rw [hexists, Day_shift]
  · rw [hexists, TimeWithinDay_shift]

/-- Witness of the amended C5, across a clock change: in US Eastern time, one
day after noon of 9 March 2024 is noon of 10 March 2024, 23 hours later. -/
theorem nextWatering_adds_days_witness :
    toISOString 1710003600000 = "2024-03-09T17:00:00.000Z" ∧
    toISOString 1710086400000 = "2024-03-10T16:00:00.000Z" ∧
    UTC easternOffset2024 (LocalTime easternOffset2024 1710003600000 + 1 * msPerDay) =
      1710086400000 ∧
    nextWatering easternOffset2024 (some 1710003600000) (.str "1") =
      some (UTC easternOffset2024 (LocalTime easternOffset2024 1710003600000 + 1 * msPerDay)) ∧
    TimeWithinDay (LocalTime easternOffset2024
        (UTC easternOffset2024 (LocalTime easternOffset2024 1710003600000 + 1 * msPerDay))) =
      TimeWithinDay (LocalTime easternOffset2024 1710003600000) :=
  ⟨by decide, by decide, by decide,
    (nextWatering_adds_days easternOffset2024 1710003600000 1 (.str "1") (by decide)
      (by decide) (by decide)).1,
    (nextWatering_adds_days easternOffset2024 1710003600000 1 (.str "1") (by decide)
      (by decide) (by decide)).2.2⟩

/-- In a zone whose offset is constant the computed date is t plus n times
86400000 ms. -/
theorem nextWatering_fixed_offset (tza t n : Int) (interval : JSVal)
    (hparse : parseInt interval = some n)
    (hrange : (t + n * msPerDay).natAbs ≤ 8640000000000000) :
    nextWatering (fun _ _ => tza) (some t) interval = some (t + n * msPerDay) := by
  have e : UTC (fun _ _ => tza) (LocalTime (fun _ _ => tza) t + n * msPerDay) =
      t + n * msPerDay := by
    unfold UTC LocalTime
    ring
  unfold nextWatering
  rw [hparse]
  simp only
  rw [setDate_getDate_add, e]
  unfold TimeClip
  rw [if_neg (by omega)]

/-! ## Initialising from the server -/

/-- On an array of JSON objects the `map` of lines 19-24 succeeds, and the
plant made from the object at position `i` takes `_id || id`, `name`,
`interval` and `lastWatered || now` from it. -/
theorem mapServerPlants_records (clock : Nat → Int) (k : Nat)
    (L : List (List (String × JSVal))) :
    mapServerPlants clock k (L.map JSVal.obj) =
      some ((L.enumFrom k).map (fun x =>
        ({ _id := (lookupField "_id" x.2).or (lookupField "id" x.2),
           name := lookupField "name" x.2,
           interval := lookupField "interval" x.2,
           lastWatered := (lookupField "lastWatered" x.2).or (.str (toISOString (clock x.1))) }
          : Plant))) := by
  induction L generalizing k with
  | nil => rfl
  | cons f rest ih =>
    simp only [List.map_cons, mapServerPlants, ih (k + 1), List.enumFrom_cons]
    rfl

theorem serverPlantsOf_records (L : List (List (String × JSVal))) (data : JSVal)
    (hdata : data = .arr (L.map JSVal.obj) ∨
      ∃ w, data = .obj w ∧ lookupField "plants" w = .arr (L.map JSVal.obj)) :
    serverPlantsOf data = some (.arr (L.map JSVal.obj)) := by
  rcases hdata with h | ⟨w, h, hw⟩
  · subst h; rfl
  · subst h
    simp only [serverPlantsOf, getProp, hw]
    rfl

/-- Line 23 in isolation: a listed record whose `lastWatered` is `null` is cached
with the clock reading of the call. -/
theorem fetchPlants_defaults_lastWatered :
    (fetchPlantsFromServer (fun _ => 1000000000000)
        (.response true (some (.arr [.obj [("_id", .str "a"), ("name", .str "Fern"),
          ("interval", .num 3), ("lastWatered", .null)]])))
        ⟨[], none⟩).state.plants =
      [{ _id := .str "a", name := .str "Fern", interval := .num 3,
         lastWatered := .str "2001-09-09T01:46:40.000Z" }] :=
  rfl

/-- Line 26 in isolation: a listed name that is an object with a `toString` of
its own makes the render throw, so the function returns `false` although the
cache has been replaced and stored. -/
theorem fetchPlants_render_throws :
    fetchPlantsFromServer (fun _ => 0)
        (.response true (some (.arr [.obj [("_id", .str "a"),
          ("name", .obj [("toString", .null)]), ("interval", .num 3),
          ("lastWatered", .str "T")]])))
        ⟨[], none⟩ =
      { state := saveAndUpdate [{ _id := .str "a", name := .obj [("toString", .null)],
                                  interval := .num 3, lastWatered := .str "T" }],
        calls := [Request.getPlants], result := some false } :=
  rfl

theorem or_recordId (fields : List (String × JSVal)) (i : String) (hi : i ≠ "")
    (h : recordId fields = .str i) :
    (lookupField "_id" fields).or (lookupField "id" fields) = recordId fields := by
  unfold recordId at h ⊢
  cases hv : lookupField "_id" fields with
  | undefined => simp [JSVal.or, truthy]
  | str v =>
    rw [hv] at h
    simp only [JSVal.str.injEq] at h
    subst h
    simp [JSVal.or, truthy, hi]
  | null => rw [hv] at h; simp at h
  | bool b => rw [hv] at h; simp at h
  | num k => rw [hv] at h; simp at h
  | arr l => rw [hv] at h; simp at h
  | obj l => rw [hv] at h; simp at h

/-- On a record of the data model the callback of lines 19-24 copies the four
fields. -/
theorem mapServerPlant_record (now : Int) (fields : List (String × JSVal))
    (h : isPlantRecord fields) :
    mapServerPlant now (.obj fields) =
      some { _id := recordId fields, name := lookupField "name" fields,
             interval := lookupField "interval" fields,
             lastWatered := lookupField "lastWatered" fields } := by
  obtain ⟨⟨i, hi, hid⟩, -, -, ts, hts, hlw⟩ := h
  have e1 := or_recordId fields i hi hid
  have e2 : (lookupField "lastWatered" fields).or (.str (toISOString now)) =
      lookupField "lastWatered" fields := by
    rw [hlw]
    simp [JSVal.or, truthy, hts]
  simp only [mapServerPlant, getProp, e1, e2]

theorem mapServerPlants_plantRecords (clock : Nat → Int) (k : Nat)
    (L : List (List (String × JSVal))) (h : ∀ f ∈ L, isPlantRecord f) :
    mapServerPlants clock k (L.map JSVal.obj) =
      some (L.map (fun f =>
        ({ _id := recordId f, name := lookupField "name" f,
           interval := lookupField "interval" f,
           lastWatered := lookupField "lastWatered" f } : Plant))) := by
  induction L generalizing k with
  | nil => rfl
  | cons f rest ih =>
    have hf := mapServerPlant_record (clock k) f (h f (List.mem_cons_self f rest))
    have hrest := ih (k + 1) (fun g hg => h g (List.mem_cons_of_mem f hg))
    simp only [List.map_cons, mapServerPlants, hf, hrest]

/-- Plants made from records of the data model render without throwing. -/
theorem updatePlantList_plantRecords (L : List (List (String × JSVal)))
    (h : ∀ f ∈ L, isPlantRecord f) :
    updatePlantList (L.map (fun f =>
        ({ _id := recordId f, name := lookupField "name" f,
           interval := lookupField "interval" f,
           lastWatered := lookupField "lastWatered" f } : Plant))) = true := by
  unfold updatePlantList
  rw [List.all_eq_true]
  intro q hq
  obtain ⟨f, hf, rfl⟩ := List.mem_map.mp hq
  obtain ⟨-, ⟨name, hname⟩, ⟨n, hn⟩, ts, -, hlw⟩ := h f hf
  simp only [hname, hn, hlw, printable, Bool.and_self]

/-- C3. For every earlier cache and every non-empty list L of records
`{id, name, intervalDays, lastWateredAt}` that the list request returns with an
`ok` response, as a bare array or under `plants`, `fetchPlantsFromServer`
returns `true` and the array and its stored copy are exactly L: the same
length, the same order, each plant with the identifier, name, interval and
time of last watering of its record, and nothing of the earlier cache. -/
theorem fetchPlants_replaces_cache (clock : Nat → Int) (s : State)
    (L : List (List (String × JSVal))) (data : JSVal) (hne : L ≠ [])
    (hrec : ∀ f ∈ L, isPlantRecord f)
    (hdata : data = .arr (L.map JSVal.obj) ∨
      ∃ w, data = .obj w ∧ lookupField "plants" w = .arr (L.map JSVal.obj)) :
    (fetchPlantsFromServer clock (.response true (some data)) s).result = some true ∧
    (fetchPlantsFromServer clock (.response true (some data)) s).state.plants =
      L.map (fun f =>
        ({ _id := recordId f, name := lookupField "name" f,
           interval := lookupField "interval" f,
           lastWatered := lookupField "lastWatered" f } : Plant)) ∧
    (fetchPlantsFromServer clock (.response true (some data)) s).state.plants.length =
      L.length ∧
    (fetchPlantsFromServer clock (.response true (some data)) s).state.storage =
      some (fetchPlantsFromServer clock (.response true (some data)) s).state.plants := by
  have hlen : (L.map JSVal.obj).length > 0 := by
    cases L with
    | nil => exact absurd rfl hne
    | cons a l => simp
  have hf : fetchPlantsFromServer clock (.response true (some data)) s =
      { state := saveAndUpdate (L.map (fun f =>
          ({ _id := recordId f, name := lookupField "name" f,
             interval := lookupField "interval" f,
             lastWatered := lookupField "lastWatered" f } : Plant))),
        calls := [Request.getPlants], result := some true } := by
    simp only [fetchPlantsFromServer, serverPlantsOf_records L data hdata, if_pos hlen,
      mapServerPlants_plantRecords clock 0 L hrec, updatePlantList_plantRecords L hrec]
    rfl
  rw [hf]
  exact ⟨rfl, rfl, by simp [saveAndUpdate], rfl⟩

/-- Witness of C3: the record of the specification's example replaces a
one-plant cache. -/
theorem fetchPlants_replaces_cache_witness :
    (fetchPlantsFromServer (fun _ => 0)
      (.response true (some (.arr ([[("id", .str "a"), ("name", .str "Fern"),
        ("interval", .num 3), ("lastWatered", .str "T")]].map JSVal.obj))))
      ⟨[newPlant 0 "Basil" "2"], some [newPlant 0 "Basil" "2"]⟩).state.plants =
      [{ _id := .str "a", name := .str "Fern", interval := .num 3, lastWatered := .str "T" }] :=
  (fetchPlants_replaces_cache (fun _ => 0) ⟨[newPlant 0 "Basil" "2"], some [newPlant 0 "Basil" "2"]⟩
    [[("id", .str "a"), ("name", .str "Fern"), ("interval", .num 3), ("lastWatered", .str "T")]]
    _ (by simp)
    (by
      intro f hf
      rw [List.mem_singleton] at hf
      subst hf
      exact ⟨⟨"a", by decide, rfl⟩, ⟨"Fern", rfl⟩, ⟨3, rfl⟩, ⟨"T", by decide, rfl⟩⟩)
    (Or.inl rfl)).2.1

/-- C4. When the list request fails in transport, is answered with a response
that is not `ok`, or is answered with the empty array or with an object whose
`plants` is missing or empty, `fetchPlantsFromServer` returns `false` and
leaves the array and the stored copy as they were. -/
theorem fetchPlants_empty_preserves_cache (clock : Nat → Int) (r : FetchResult) (s : State)
    (h : listFailsOrEmpty r) :
    (fetchPlantsFromServer clock r s).result = some false ∧
    (fetchPlantsFromServer clock r s).state = s := by
  match r, h with
  | .networkError, _ => exact ⟨rfl, rfl⟩
  | .response false _, _ => exact ⟨rfl, rfl⟩
  | .response true (some (.arr [])), _ => exact ⟨rfl, rfl⟩
  | .response true (some (.obj fields)), h =>
    rcases h with h | h <;>
      simp [fetchPlantsFromServer, serverPlantsOf, getProp, h, JSVal.or, truthy]

/-- Witness of C4: an `ok` answer `{}` leaves a one-plant cache alone. -/
theorem fetchPlants_empty_preserves_cache_witness :
    (fetchPlantsFromServer (fun _ => 0) (.response true (some (.obj [])))
      ⟨[newPlant 0 "Basil" "2"], some [newPlant 0 "Basil" "2"]⟩).state =
      ⟨[newPlant 0 "Basil" "2"], some [newPlant 0 "Basil" "2"]⟩ :=
  (fetchPlants_empty_preserves_cache (fun _ => 0) (.response true (some (.obj [])))
    ⟨[newPlant 0 "Basil" "2"], some [newPlant 0 "Basil" "2"]⟩ (Or.inl rfl)).2

end PlantBk
